import Mathlib

/-!
Verification of the LocalizedContentStore of the CareNest repository.

The source under study is
`App/app/stack/Newborn/Parental_Education/translations.js`, which exports a
single static literal `translations` mapping a language code to a record with
one field `guidelines` holding a multi-line text.  The spec describes a
read-only store populated once from this literal, together with an accessor
`get(languageCode) -> guidelinesText`.  The accessor itself does not appear
in the source tree, so it is modelled from the spec below and marked as such.
-/

/-- A localized content entry: the source stores, per language code, a record
with a single field `guidelines` (a multi-line formatted text). -/
structure LocalizedContent where
  guidelines : String
deriving DecidableEq

/-- The English guidelines text, transcribed byte-for-byte from the template
literal `translations.en.guidelines` in the source. -/
def enGuidelines : String :=
  "👶 Parental Guidelines for Infants (Medical Focus):\n\n1. Breastfeed exclusively for the first 6 months.\n2. No honey or cow’s milk before 1 year.\n3. Follow the full vaccination schedule (e.g. BCG, Hep B, DTP).\n4. Track developmental milestones — seek help if delayed.\n5. Always place baby on back for sleep (prevents SIDS).\n6. Use mild, fragrance-free products; clean front to back.\n7. Be aware of family genetic issues; consult early if needed.\n8. Call doctor if baby has fever, poor feeding, or lethargy.\n9. Talk, sing, and bond daily — avoid screens.\n10. Attend all pediatric follow-ups and growth checks."

/-- The Hindi guidelines text, transcribed byte-for-byte from the template
literal `translations.hi.guidelines` in the source. -/
def hiGuidelines : String :=
  "👶 शिशुओं के लिए अभिभावक दिशानिर्देश (चिकित्सकीय):\n\n1. पहले 6 महीनों तक केवल स्तनपान कराएं।\n2. 1 वर्ष से पहले शहद या गाय का दूध न दें।\n3. टीकाकरण शेड्यूल का पालन करें (जैसे BCG, हेपेटाइटिस B, DTP)।\n4. विकासात्मक मील के पत्थर पर नज़र रखें — देरी हो तो डॉक्टर से मिलें।\n5. सोने के लिए बच्चे को हमेशा पीठ के बल सुलाएं (SIDS से बचाव)।\n6. हल्के, खुशबू रहित उत्पाद उपयोग करें; सामने से पीछे की ओर सफाई करें।\n7. पारिवारिक आनुवंशिक स्थितियों के बारे में जागरूक रहें।\n8. बुखार, सुस्ती या दूध न पीने पर डॉक्टर से संपर्क करें।\n9. रोज़ बात करें, गाएं और खेलें — स्क्रीन से बचें।\n10. नियमित बाल रोग विशेषज्ञ के चेकअप कराते रहें।"

/-- The static store literal exported by the source file: an association from
language code to its `LocalizedContent` entry, in source order. -/
def translations : List (String × LocalizedContent) :=
  [("en", { guidelines := enGuidelines }), ("hi", { guidelines := hiGuidelines })]

namespace LocalizedContentStore

/-- Modelled from the spec: the source ships only the static `translations`
literal, and the accessor `get(languageCode) -> guidelinesText` of spec
section 4.1 is not in the source tree.  Per the spec it is a pure lookup that
returns the exact stored text for a known code and signals a distinct
`UnknownLanguage` condition for a code not present in the store; the signal
is rendered here as `none`, a value distinct from every string. -/
def get (languageCode : String) : Option String :=
  (translations.lookup languageCode).map LocalizedContent.guidelines

end LocalizedContentStore

/-- Modelled from the spec: the lifecycle model of section 3.  The running
application state, as far as the localization layer is concerned, is the
store contents; it is populated once at start from the static source. -/
structure StoreState where
  store : List (String × LocalizedContent)
deriving DecidableEq

/-- Modelled from the spec: initialization populates the store from the
static literal source.  The argument stands for the start-up event, so that
distinct start-ups can be compared. -/
def initStore (_startup : Unit) : StoreState :=
  ⟨translations⟩

/-- Modelled from the spec: `get` as an operation on the application state,
returning the looked-up text together with the state after the call.  This is
the only operation the store exposes. -/
def getOp (s : StoreState) (languageCode : String) : Option String × StoreState :=
  ((s.store.lookup languageCode).map LocalizedContent.guidelines, s)

/-- Run a whole sequence of `get` calls from a state, keeping the final
state. -/
def runGets (s : StoreState) : List String → StoreState
  | [] => s
  | L :: Ls => runGets (getOp s L).2 Ls

/-- The part of the English text that precedes the first numbered
guideline's body, ending in the list number "1. ". -/
def enPre : String :=
  "👶 Parental Guidelines for Infants (Medical Focus):\n\n1. "

/-- The part of the English text that follows the first numbered
guideline's body. -/
def enPost : String :=
  "\n2. No honey or cow’s milk before 1 year.\n3. Follow the full vaccination schedule (e.g. BCG, Hep B, DTP).\n4. Track developmental milestones — seek help if delayed.\n5. Always place baby on back for sleep (prevents SIDS).\n6. Use mild, fragrance-free products; clean front to back.\n7. Be aware of family genetic issues; consult early if needed.\n8. Call doctor if baby has fever, poor feeding, or lethargy.\n9. Talk, sing, and bond daily — avoid screens.\n10. Attend all pediatric follow-ups and growth checks."

/-- The part of the Hindi text that precedes the vaccination phrase. -/
def hiPre : String :=
  "👶 शिशुओं के लिए अभिभावक दिशानिर्देश (चिकित्सकीय):\n\n1. पहले 6 महीनों तक केवल स्तनपान कराएं।\n2. 1 वर्ष से पहले शहद या गाय का दूध न दें।\n3. "

/-- The part of the Hindi text that follows the vaccination phrase. -/
def hiPost : String :=
  " (जैसे BCG, हेपेटाइटिस B, DTP)।\n4. विकासात्मक मील के पत्थर पर नज़र रखें — देरी हो तो डॉक्टर से मिलें।\n5. सोने के लिए बच्चे को हमेशा पीठ के बल सुलाएं (SIDS से बचाव)।\n6. हल्के, खुशबू रहित उत्पाद उपयोग करें; सामने से पीछे की ओर सफाई करें।\n7. पारिवारिक आनुवंशिक स्थितियों के बारे में जागरूक रहें।\n8. बुखार, सुस्ती या दूध न पीने पर डॉक्टर से संपर्क करें।\n9. रोज़ बात करें, गाएं और खेलें — स्क्रीन से बचें।\n10. नियमित बाल रोग विशेषज्ञ के चेकअप कराते रहें।"

/-- Claim C1: for every language code not configured in the store, `get`
signals the distinct `UnknownLanguage` condition, rendered as `none`; in
particular it returns no string at all, so never an empty, partial or
otherwise corrupted one. -/
theorem get_unknown_signals_error (L : String)
    (h : translations.lookup L = none) :
    LocalizedContentStore.get L = none ∧ ∀ t : String, LocalizedContentStore.get L ≠ some t := by
  constructor
  · simp [LocalizedContentStore.get, h]
  · intro t
    simp [LocalizedContentStore.get, h]

/-- Witness for C1 at the unconfigured code "xx". -/
theorem get_unknown_signals_error_witness :
    LocalizedContentStore.get "xx" = none ∧ ∀ t : String, LocalizedContentStore.get "xx" ≠ some t :=
  get_unknown_signals_error "xx" (by rfl)

/-- Claim C2: `LocalizedContentStore.get "en"` succeeds, and the returned text contains the exact
substring "Breastfeed exclusively for the first 6 months.", placed right
after the list number "1. " as the first numbered guideline. -/
theorem get_en_contains_breastfeed_guideline :
    ∃ p q : String,
      LocalizedContentStore.get "en" = some (p ++ "Breastfeed exclusively for the first 6 months." ++ q) ∧
      ∃ r : String, p = r ++ "1. " :=
  ⟨enPre, enPost, by rfl,
    ⟨"👶 Parental Guidelines for Infants (Medical Focus):\n\n", by rfl⟩⟩

/-- Claim C3: `LocalizedContentStore.get "hi"` succeeds, and the returned text contains the exact
substring "टीकाकरण शेड्यूल का पालन करें" verbatim, script and word order
preserved. -/
theorem get_hi_contains_vaccination_guideline :
    ∃ p q : String,
      LocalizedContentStore.get "hi" = some (p ++ "टीकाकरण शेड्यूल का पालन करें" ++ q) :=
  ⟨hiPre, hiPost, by rfl⟩

/-- Claim C4: for every language code configured in the store, `get` returns
exactly the stored text for that code, and that text is non-empty. -/
theorem get_known_returns_exact_nonempty (L : String) (c : LocalizedContent)
    (h : translations.lookup L = some c) :
    LocalizedContentStore.get L = some c.guidelines ∧ c.guidelines ≠ "" := by
  refine ⟨by simp [LocalizedContentStore.get, h], ?_⟩
  simp only [translations, List.lookup] at h
  split at h
  · cases h
    decide
  · split at h
    · cases h
      decide
    · cases h

/-- Witness for C4 at the configured code "en". -/
theorem get_known_returns_exact_nonempty_witness :
    LocalizedContentStore.get "en" = some (LocalizedContent.mk enGuidelines).guidelines ∧
      (LocalizedContent.mk enGuidelines).guidelines ≠ "" :=
  get_known_returns_exact_nonempty "en" ⟨enGuidelines⟩ (by rfl)

/-- Claim C5: `get` is idempotent: a second call with the same code, on the
state left behind by the first call, returns byte-identical text. -/
theorem get_idempotent (s : StoreState) (L : String) :
    (getOp (getOp s L).2 L).1 = (getOp s L).1 :=
  rfl

/-- Claim C6: each language code maps to exactly one entry (the key list of
the store has no duplicates), and the code set is fixed during a run: the
only exposed operation leaves the store, hence its code set, unchanged. -/
theorem codes_unique_and_fixed :
    (translations.map Prod.fst).Nodup ∧
      ∀ (s : StoreState) (L : String),
        ((getOp s L).2).store.map Prod.fst = s.store.map Prod.fst :=
  ⟨by decide, fun s L => rfl⟩

/-- Claim C7: the store exposes no update, insert or delete: its one-time
population is from the static literal, and any sequence of calls of the one
exposed operation leaves any state, in particular the initial one,
unchanged. -/
theorem store_immutable :
    initStore () = ⟨translations⟩ ∧
      ∀ (s : StoreState) (calls : List String), runGets s calls = s := by
  refine ⟨rfl, ?_⟩
  intro s calls
  induction calls generalizing s with
  | nil => rfl
  | cons L Ls ih => exact ih (getOp s L).2

/-- Claim C8: `get` has no side effects: on every state and every code,
known or unknown, the state after the call equals the state before, and the
returned value agrees with the pure lookup `get`. -/
theorem get_pure_no_side_effects (s : StoreState) (L : String) :
    (getOp s L).2 = s ∧ (getOp (initStore ()) L).1 = LocalizedContentStore.get L :=
  ⟨rfl, rfl⟩

/-- Claim C9: the supported code set is stable across start-ups: any two
initializations from the static source yield identical stores, hence the
same code list and the same associated texts. -/
theorem startup_deterministic (u v : Unit) :
    initStore u = initStore v ∧
      (initStore u).store.map Prod.fst = (initStore v).store.map Prod.fst :=
  ⟨rfl, rfl⟩

/-- Claim C10: the configured codes are exactly "en" and "hi", an entry
carries nothing beyond its single `guidelines` field, and the store holds no
default or fallback entry: a raw lookup of any other code yields nothing. -/
theorem store_exactly_en_hi (L : String) (h1 : L ≠ "en") (h2 : L ≠ "hi") :
    translations.map Prod.fst = ["en", "hi"] ∧
      (∀ c : LocalizedContent, c = ⟨c.guidelines⟩) ∧
      translations.lookup L = none := by
  refine ⟨by decide, fun c => rfl, ?_⟩
  have e1 : (L == "en") = false := beq_eq_false_iff_ne.mpr h1
  have e2 : (L == "hi") = false := beq_eq_false_iff_ne.mpr h2
  simp [translations, List.lookup, e1, e2]

/-- Witness for C10 at the unconfigured code "xx". -/
theorem store_exactly_en_hi_witness :
    translations.map Prod.fst = ["en", "hi"] ∧
      (∀ c : LocalizedContent, c = ⟨c.guidelines⟩) ∧
      translations.lookup "xx" = none :=
  store_exactly_en_hi "xx" (by decide) (by decide)
